import Mathlib

/-!
Verification development for the waiting-room (lobby) admission service.

Part 1 embeds `src/backend/core/services/participants_management.py`
(the `ParticipantsManagement` service) as pure Lean functions that return,
next to their `Except` outcome, the ordered trace of external effects they
perform (lobby-cache clearing, LiveKit client creation, upstream calls,
client closing).  Upstream LiveKit calls are modelled as a function
parameter mapping the request to either success or a `TwirpError`.

Part 2 models the Lobby Engine (`core/services/lobby.py`, not part of the
sources at hand) from the specification: an expiring key-value store as an
association list, the `WaitingRecord` state machine, `get_or_create_waiting`,
`decide`, `list_waiting`, and the Request-Entry Orchestrator.
-/

/-- A JSON value, as serialized by Python's `json.dumps` (stdlib model;
restricted to null, booleans, integers, strings, arrays and objects). -/
inductive JsonValue where
  | null : JsonValue
  | bool : Bool → JsonValue
  | num : Int → JsonValue
  | str : String → JsonValue
  | arr : List JsonValue → JsonValue
  | obj : List (String × JsonValue) → JsonValue

/-- Escape one character the way Python's `json.dumps` escapes string
content (model of the stdlib: quote, backslash and common control chars). -/
def jsonEscapeChar (c : Char) : String :=
  if c = '"' then "\\\""
  else if c = '\\' then "\\\\"
  else if c = '\n' then "\\n"
  else if c = '\t' then "\\t"
  else if c = '\r' then "\\r"
  else String.singleton c

/-- Serialize a string literal as Python's `json.dumps` does (stdlib model). -/
def jsonStr (s : String) : String :=
  "\"" ++ String.join (s.toList.map jsonEscapeChar) ++ "\""

mutual

/-- Model of Python's `json.dumps` (stdlib) on the values of `JsonValue`;
in particular `jsonDumps JsonValue.null = "null"`. -/
def jsonDumps : JsonValue → String
  | JsonValue.null => "null"
  | JsonValue.bool true => "true"
  | JsonValue.bool false => "false"
  | JsonValue.num n => toString n
  | JsonValue.str s => jsonStr s
  | JsonValue.arr xs => "[" ++ jsonDumpsArr xs ++ "]"
  | JsonValue.obj kvs => "\x7b" ++ jsonDumpsObj kvs ++ "\x7d"

/-- Comma-separated serialization of a JSON array's elements. -/
def jsonDumpsArr : List JsonValue → String
  | [] => ""
  | [x] => jsonDumps x
  | x :: y :: rest => jsonDumps x ++ ", " ++ jsonDumpsArr (y :: rest)

/-- Comma-separated serialization of a JSON object's key-value pairs. -/
def jsonDumpsObj : List (String × JsonValue) → String
  | [] => ""
  | [(k, v)] => jsonStr k ++ ": " ++ jsonDumps v
  | (k, v) :: p :: rest => jsonStr k ++ ": " ++ jsonDumps v ++ ", " ++ jsonDumpsObj (p :: rest)

end

/-- A Python dict with string keys and JSON-serializable values, as passed
for the `metadata` argument of `ParticipantsManagement.update`. -/
abbrev PyDict := List (String × JsonValue)

/-- View of the `metadata` argument as the JSON value `json.dumps` receives:
Python's `None` becomes JSON `null`, a dict becomes a JSON object. -/
def pyOptDictToJson : Option PyDict → JsonValue
  | none => JsonValue.null
  | some kvs => JsonValue.obj kvs

/-- Embedding of `livekit.api.TwirpError`: the upstream error raised by failed LiveKit
calls; `status` is read with `getattr(e, "status", None)`, hence optional. -/
structure TwirpError where
  status : Option Int
deriving DecidableEq

/-- Embedding of `ParticipantsManagementException` from
`participants_management.py`: message plus an HTTP-ish `status_code`
(the Python default is 500). -/
structure ParticipantsManagementException where
  message : String
  status_code : Int
deriving DecidableEq

/-- Embedding of `livekit.api.MuteRoomTrackRequest` (the fields the service sets). -/
structure MuteRoomTrackRequest where
  room : String
  identity : String
  track_sid : String
  muted : Bool
deriving DecidableEq

/-- Embedding of `livekit.api.RoomParticipantIdentity` (the fields the service sets). -/
structure RoomParticipantIdentity where
  room : String
  identity : String
deriving DecidableEq

/-- Embedding of `livekit.api.UpdateParticipantRequest` (the fields the service sets);
`metadata` is the already-serialized JSON string, as in the protobuf. -/
structure UpdateParticipantRequest where
  room : String
  identity : String
  metadata : String
  permission : Option (List (String × String))
  attributes : Option (List (String × String))
  name : Option String
deriving DecidableEq

/-- External effects performed by the `ParticipantsManagement` methods, in
order: lobby-cache clearing (or the warning log when `room_name` is not a
UUID), LiveKit client creation, the three upstream calls, `aclose`. -/
inductive Event where
  | clearLobby : String → String → Event
  | logMalformedRoom : String → Event
  | createClient : Event
  | callMute : MuteRoomTrackRequest → Event
  | callRemove : RoomParticipantIdentity → Event
  | callUpdate : UpdateParticipantRequest → Event
  | aclose : Event
deriving DecidableEq

/-- Mapping `status_code = 404 if getattr(e, "status", None) == 404 else 500`
followed by raising `ParticipantsManagementException(message, ...)`. -/
def twirpToManagementError (message : String) (e : TwirpError) :
    ParticipantsManagementException :=
  ⟨message, if e.status = some 404 then 404 else 500⟩

namespace ParticipantsManagement

/-- Embedding of `ParticipantsManagement.mute`: builds a `MuteRoomTrackRequest` with
`muted=True`, calls the upstream, maps `TwirpError` to
`ParticipantsManagementException`, and closes the client in `finally`.
`upstream` models `lkapi.room.mute_published_track`. -/
def mute (upstream : MuteRoomTrackRequest → Except TwirpError Unit)
    (room_name identity track_sid : String) :
    List Event × Except ParticipantsManagementException Unit :=
  let req : MuteRoomTrackRequest := ⟨room_name, identity, track_sid, true⟩
  let events := [Event.createClient, Event.callMute req, Event.aclose]
  match upstream req with
  | Except.ok u => (events, Except.ok u)
  | Except.error e =>
      (events, Except.error (twirpToManagementError "Could not mute participant" e))

/-- Embedding of `ParticipantsManagement.remove`: first attempts the lobby-cache clear
(`LobbyService().clear_participant_cache(room_id=uuid.UUID(room_name), ...)`);
a `ValueError`/`TypeError` from `uuid.UUID` is caught and logged
(`uuidOk` models whether `uuid.UUID(room_name)` succeeds).  Then it calls
the upstream `remove_participant`, maps `TwirpError`, and closes the
client in `finally`. -/
def remove (uuidOk : Bool)
    (upstream : RoomParticipantIdentity → Except TwirpError Unit)
    (room_name identity : String) :
    List Event × Except ParticipantsManagementException Unit :=
  let pre := if uuidOk then [Event.clearLobby room_name identity]
             else [Event.logMalformedRoom room_name]
  let req : RoomParticipantIdentity := ⟨room_name, identity⟩
  let events := pre ++ [Event.createClient, Event.callRemove req, Event.aclose]
  match upstream req with
  | Except.ok u => (events, Except.ok u)
  | Except.error e =>
      (events, Except.error (twirpToManagementError "Could not remove participant" e))

/-- Embedding of `ParticipantsManagement.update`: builds an `UpdateParticipantRequest`
whose `metadata` is `json.dumps(metadata)`, calls the upstream, maps
`TwirpError`, and closes the client in `finally`. -/
def update (upstream : UpdateParticipantRequest → Except TwirpError Unit)
    (room_name identity : String) (metadata : Option PyDict)
    (attributes : Option (List (String × String)))
    (permission : Option (List (String × String)))
    (name : Option String) :
    List Event × Except ParticipantsManagementException Unit :=
  let req : UpdateParticipantRequest :=
    ⟨room_name, identity, jsonDumps (pyOptDictToJson metadata),
     permission, attributes, name⟩
  let events := [Event.createClient, Event.callUpdate req, Event.aclose]
  match upstream req with
  | Except.ok u => (events, Except.ok u)
  | Except.error e =>
      (events, Except.error (twirpToManagementError "Could not update participant" e))

end ParticipantsManagement

/-- Modelled from the spec: the status enum of a `WaitingRecord`
(`core/services/lobby.py` is not among the sources at hand; spec section 3:
`WAITING | ACCEPTED | DENIED`, terminal states `ACCEPTED`, `DENIED`). -/
inductive LobbyStatus where
  | waiting : LobbyStatus
  | accepted : LobbyStatus
  | denied : LobbyStatus
deriving DecidableEq

/-- Modelled from the spec: the `WaitingRecord` of spec section 3, one per
(room_id, participant_id); `ttl_seconds` is the per-status configured TTL
re-armed on every write, timestamps are abstract `Nat` instants. -/
structure WaitingRecord where
  room_id : String
  participant_id : String
  display_name : String
  status : LobbyStatus
  created_at : Nat
  decided_at : Option Nat
  ttl_seconds : Nat
deriving DecidableEq

/-- Modelled from the spec: key of the expiring store, the
(room_id, participant_id) pair of spec section 4.1 ("keyed always by
`room_id` + `participant_id`"; the configured key namespacing is a fixed
shared part and is elided). -/
abbrev LobbyKey := String × String

/-- Modelled from the spec: the Expiring Key-Value Store of spec section 2
restricted to one instant (no expiry event occurring), as an association
list from keys to records. -/
abbrev LobbyStore := List (LobbyKey × WaitingRecord)

/-- Modelled from the spec: store `get(key) -> value|absent`. -/
def storeGet (s : LobbyStore) (k : LobbyKey) : Option WaitingRecord :=
  match s with
  | [] => none
  | (k2, v) :: rest => if k2 = k then some v else storeGet rest k

/-- Modelled from the spec: store `delete(key)`, idempotent. -/
def storeDelete (k : LobbyKey) : LobbyStore → LobbyStore
  | [] => []
  | (k2, v) :: rest =>
      if k2 = k then storeDelete k rest else (k2, v) :: storeDelete k rest

/-- Modelled from the spec: store `set(key, value, ttl)` — overwrites the
key and re-arms expiry (the TTL itself lives in the record's
`ttl_seconds`). -/
def storeSet (k : LobbyKey) (v : WaitingRecord) (s : LobbyStore) : LobbyStore :=
  (k, v) :: storeDelete k s

/-- Modelled from the spec: the configuration surface of spec section 6 —
notification type tag and the three per-status TTLs. -/
structure LobbyConfig where
  notification_type : String
  waiting_timeout : Nat
  accepted_timeout : Nat
  denied_timeout : Nat
deriving DecidableEq

/-- Modelled from the spec: the error taxonomy entry `LobbyParticipantNotFound`
of spec section 7, raised by `decide` when no live WAITING record matches. -/
inductive LobbyError where
  | LobbyParticipantNotFound : LobbyError
deriving DecidableEq

namespace LobbyService

/-- Modelled from the spec: `get_or_create_waiting(room_id, participant_id,
display_name)` of spec section 4.1 — if no record exists, creates one with
status WAITING, `created_at = now`, TTL = waiting-TTL, returning
`created = true`; if a record exists, returns it unchanged with
`created = false`. -/
def get_or_create_waiting (cfg : LobbyConfig) (s : LobbyStore)
    (room_id participant_id display_name : String) (now : Nat) :
    WaitingRecord × Bool × LobbyStore :=
  match storeGet s (room_id, participant_id) with
  | some r => (r, false, s)
  | none =>
      let r : WaitingRecord :=
        ⟨room_id, participant_id, display_name, LobbyStatus.waiting,
         now, none, cfg.waiting_timeout⟩
      (r, true, storeSet (room_id, participant_id) r s)

/-- Modelled from the spec: the record written by a successful `decide` —
status set to ACCEPTED or DENIED, `decided_at` stamped, TTL re-armed to the
accepted/denied TTL (spec section 4.1). -/
def decidedRecord (cfg : LobbyConfig) (r : WaitingRecord) (accept : Bool)
    (now : Nat) : WaitingRecord :=
  ⟨r.room_id, r.participant_id, r.display_name,
   if accept then LobbyStatus.accepted else LobbyStatus.denied,
   r.created_at, some now,
   if accept then cfg.accepted_timeout else cfg.denied_timeout⟩

/-- Modelled from the spec: `decide(room_id, participant_id, accept)` of
spec section 4.1 — the record must exist and be in status WAITING, else
`LobbyParticipantNotFound`; on success the decided record is written back
(read-then-write, spec section 4.1 concurrency note).  The store is
returned unchanged on failure. -/
def decide (cfg : LobbyConfig) (s : LobbyStore)
    (room_id participant_id : String) (accept : Bool) (now : Nat) :
    Except LobbyError WaitingRecord × LobbyStore :=
  match storeGet s (room_id, participant_id) with
  | none => (Except.error LobbyError.LobbyParticipantNotFound, s)
  | some r =>
      match r.status with
      | LobbyStatus.waiting =>
          let r2 := decidedRecord cfg r accept now
          (Except.ok r2, storeSet (room_id, participant_id) r2 s)
      | LobbyStatus.accepted => (Except.error LobbyError.LobbyParticipantNotFound, s)
      | LobbyStatus.denied => (Except.error LobbyError.LobbyParticipantNotFound, s)

/-- Ordering used by `list_waiting`: ascending `created_at`. -/
def createdLe (a b : WaitingRecord) : Prop := a.created_at ≤ b.created_at

instance : DecidableRel createdLe := fun a b => Nat.decLe a.created_at b.created_at

instance : IsTotal WaitingRecord createdLe := ⟨fun a b => Nat.le_total a.created_at b.created_at⟩

instance : IsTrans WaitingRecord createdLe := ⟨fun _ _ _ => Nat.le_trans⟩

/-- Modelled from the spec: the room-scoped scan of `list_waiting` —
entries of the store under the room's key prefix whose status is
WAITING (spec section 4.1). -/
def roomWaitingEntries (s : LobbyStore) (room_id : String) : List WaitingRecord :=
  (s.filter fun kv =>
      Decidable.decide (kv.1.1 = room_id)
        && Decidable.decide (kv.2.status = LobbyStatus.waiting)).map Prod.snd

/-- Modelled from the spec: `list_waiting(room_id)` of spec section 4.1 —
scans the store by room-scoped key prefix, filters to status WAITING,
orders by `created_at` ascending; a pure read with no side effects. -/
def list_waiting (s : LobbyStore) (room_id : String) : List WaitingRecord :=
  List.insertionSort createdLe (roomWaitingEntries s room_id)

/-- Modelled from the spec: `remove(room_id, participant_id)` of spec
section 4.1 — deletes the record if present; idempotent. -/
def remove (s : LobbyStore) (room_id participant_id : String) : LobbyStore :=
  storeDelete (room_id, participant_id) s

end LobbyService

/-- Modelled from the spec: the response of the Request-Entry Orchestrator
(spec section 4.3) — participant-visible status, credential-or-null, and
the moderator notifications published during the call (each is the
configured type tag, room-scoped). -/
structure EntryResult where
  status : LobbyStatus
  credential : Option String
  notifications : List String
deriving DecidableEq

/-- Modelled from the spec: the Request-Entry Orchestrator of spec
section 4.3 (its implementation is not among the sources at hand).
`moderated` is the room policy read; `issue` is the external Credential
Issuer.  Unmoderated rooms never touch the Lobby Engine; moderated rooms
call `get_or_create_waiting` and notify exactly when `created = true`. -/
def request_entry (cfg : LobbyConfig) (issue : String → String → String → String)
    (moderated : Bool) (room_id participant_id display_name : String)
    (now : Nat) (s : LobbyStore) : EntryResult × LobbyStore :=
  if moderated then
    let gc := LobbyService.get_or_create_waiting cfg s room_id participant_id
        display_name now
    if gc.2.1 then
      (⟨LobbyStatus.waiting, none, [cfg.notification_type]⟩, gc.2.2)
    else
      match gc.1.status with
      | LobbyStatus.waiting => (⟨LobbyStatus.waiting, none, []⟩, gc.2.2)
      | LobbyStatus.denied => (⟨LobbyStatus.denied, none, []⟩, gc.2.2)
      | LobbyStatus.accepted =>
          (⟨LobbyStatus.accepted,
            some (issue room_id participant_id display_name), []⟩, gc.2.2)
  else
    (⟨LobbyStatus.accepted,
      some (issue room_id participant_id display_name), []⟩, s)

/-- Modelled from the spec: `n` consecutive request-entry polls by the same
participant of a moderated room (spec section 8, idempotent notification),
with no moderator decision and no expiry in between; returns the total
number of notifications published over the sequence and the final store. -/
def pollRun (cfg : LobbyConfig) (issue : String → String → String → String)
    (room_id participant_id display_name : String) :
    Nat → Nat → LobbyStore → Nat × LobbyStore
  | 0, _, s => (0, s)
  | Nat.succ n, t, s =>
      let p := request_entry cfg issue true room_id participant_id display_name t s
      let rest := pollRun cfg issue room_id participant_id display_name n (t + 1) p.2
      (p.1.notifications.length + rest.1, rest.2)

/-- Concrete lobby configuration used to instantiate theorems on concrete
inputs (the values mirror the test settings of
`test_api_rooms_waiting_room_participant_flow.py`). -/
def cfgW : LobbyConfig := ⟨"lobby.participant_waiting", 60, 60, 60⟩

/-- Concrete credential issuer used to instantiate theorems. -/
def issueW : String → String → String → String := fun _ _ _ => "test-token"

/-- Concrete WAITING record used to instantiate theorems. -/
def recW : WaitingRecord :=
  ⟨"r1", "p1", "Alice", LobbyStatus.waiting, 5, none, 60⟩

/-- Concrete ACCEPTED (terminal) record used to instantiate theorems. -/
def recA : WaitingRecord :=
  ⟨"r1", "p1", "Alice", LobbyStatus.accepted, 5, some 7, 60⟩

theorem storeGet_storeSet_self (k : LobbyKey) (v : WaitingRecord) (s : LobbyStore) :
    storeGet (storeSet k v s) k = some v := by
  simp [storeSet, storeGet]

theorem request_entry_waiting (cfg : LobbyConfig)
    (issue : String → String → String → String)
    (room_id participant_id display_name : String) (now : Nat) (s : LobbyStore)
    (r : WaitingRecord) (h : storeGet s (room_id, participant_id) = some r)
    (hw : r.status = LobbyStatus.waiting) :
    request_entry cfg issue true room_id participant_id display_name now s
      = (⟨LobbyStatus.waiting, none, []⟩, s) := by
  simp [request_entry, LobbyService.get_or_create_waiting, h, hw]

theorem pollRun_waiting (cfg : LobbyConfig)
    (issue : String → String → String → String)
    (room_id participant_id display_name : String) (n t : Nat) (s : LobbyStore)
    (r : WaitingRecord) (h : storeGet s (room_id, participant_id) = some r)
    (hw : r.status = LobbyStatus.waiting) :
    pollRun cfg issue room_id participant_id display_name n t s = (0, s) := by
  induction n generalizing t with
  | zero => rfl
  | succ n ih =>
      simp [pollRun, request_entry_waiting cfg issue room_id participant_id
        display_name t s r h hw, ih]

theorem request_entry_new (cfg : LobbyConfig)
    (issue : String → String → String → String)
    (room_id participant_id display_name : String) (now : Nat) (s : LobbyStore)
    (h : storeGet s (room_id, participant_id) = none) :
    request_entry cfg issue true room_id participant_id display_name now s
      = (⟨LobbyStatus.waiting, none, [cfg.notification_type]⟩,
         storeSet (room_id, participant_id)
           ⟨room_id, participant_id, display_name, LobbyStatus.waiting,
            now, none, cfg.waiting_timeout⟩ s) := by
  simp [request_entry, LobbyService.get_or_create_waiting, h]

/-- C1: in `ParticipantsManagement.remove(room_name, identity)` the
lobby-cache clear is attempted first — the very first effect is either the
clear or, for a non-UUID `room_name`, the warning log — and in both cases
the external media-server `remove_participant` call is still made; the
returned outcome does not depend on whether the `room_name` parsed. -/
theorem remove_lobby_clear_first_and_swallowed (uuidOk : Bool)
    (upstream : RoomParticipantIdentity → Except TwirpError Unit)
    (room_name identity : String) :
    (ParticipantsManagement.remove uuidOk upstream room_name identity).1
      = (if uuidOk then [Event.clearLobby room_name identity]
         else [Event.logMalformedRoom room_name])
        ++ [Event.createClient, Event.callRemove ⟨room_name, identity⟩, Event.aclose]
    ∧ (ParticipantsManagement.remove uuidOk upstream room_name identity).2
      = (ParticipantsManagement.remove true upstream room_name identity).2 := by
  cases hup : upstream ⟨room_name, identity⟩ <;>
    exact ⟨by simp [ParticipantsManagement.remove, hup],
           by simp [ParticipantsManagement.remove, hup]⟩

/-- C2: in each of `mute`, `remove` and `update`, a `TwirpError` whose
`status` is 404 is mapped to a `ParticipantsManagementException` with
`status_code = 404`, and any other `TwirpError` to one with
`status_code = 500`. -/
theorem twirp_error_status_mapping (e : TwirpError) (uuidOk : Bool)
    (room_name identity track_sid : String) (metadata : Option PyDict)
    (attributes permission : Option (List (String × String)))
    (name : Option String) :
    (ParticipantsManagement.mute (fun _ => Except.error e)
        room_name identity track_sid).2
      = Except.error ⟨"Could not mute participant",
          if e.status = some 404 then 404 else 500⟩
    ∧ (ParticipantsManagement.remove uuidOk (fun _ => Except.error e)
        room_name identity).2
      = Except.error ⟨"Could not remove participant",
          if e.status = some 404 then 404 else 500⟩
    ∧ (ParticipantsManagement.update (fun _ => Except.error e)
        room_name identity metadata attributes permission name).2
      = Except.error ⟨"Could not update participant",
          if e.status = some 404 then 404 else 500⟩ :=
  ⟨rfl, rfl, rfl⟩

/-- C8: `ParticipantsManagement.update` always sends the `metadata`
argument through `json.dumps`; the upstream request carries
`jsonDumps (pyOptDictToJson metadata)`, and for `metadata = None` that
serialization is the literal string `"null"`. -/
theorem update_metadata_always_json_dumped
    (upstream : UpdateParticipantRequest → Except TwirpError Unit)
    (room_name identity : String) (metadata : Option PyDict)
    (attributes permission : Option (List (String × String)))
    (name : Option String) :
    (ParticipantsManagement.update upstream room_name identity metadata
        attributes permission name).1
      = [Event.createClient,
         Event.callUpdate
           ⟨room_name, identity, jsonDumps (pyOptDictToJson metadata),
            permission, attributes, name⟩,
         Event.aclose]
    ∧ jsonDumps (pyOptDictToJson none) = "null" := by
  refine ⟨?_, rfl⟩
  cases hup : upstream ⟨room_name, identity, jsonDumps (pyOptDictToJson metadata),
      permission, attributes, name⟩ <;>
    simp [ParticipantsManagement.update, hup]

/-- C9: `ParticipantsManagement.mute` always sends `muted = true` in the
`MuteRoomTrackRequest`, whatever its arguments and the upstream outcome:
the operation can only mute, never unmute. -/
theorem mute_request_always_muted_true
    (upstream : MuteRoomTrackRequest → Except TwirpError Unit)
    (room_name identity track_sid : String) :
    (ParticipantsManagement.mute upstream room_name identity track_sid).1
      = [Event.createClient,
         Event.callMute ⟨room_name, identity, track_sid, true⟩,
         Event.aclose] := by
  cases hup : upstream ⟨room_name, identity, track_sid, true⟩ <;>
    simp [ParticipantsManagement.mute, hup]

/-- C10: in every execution of `mute`, `remove` and `update` — whether the
upstream call succeeds or raises — the created LiveKit client is closed
exactly once, as the final effect of the call. -/
theorem aclose_exactly_once_every_path (uuidOk : Bool)
    (up1 : MuteRoomTrackRequest → Except TwirpError Unit)
    (up2 : RoomParticipantIdentity → Except TwirpError Unit)
    (up3 : UpdateParticipantRequest → Except TwirpError Unit)
    (room_name identity track_sid : String) (metadata : Option PyDict)
    (attributes permission : Option (List (String × String)))
    (name : Option String) :
    ((ParticipantsManagement.mute up1 room_name identity track_sid).1.count
        Event.aclose = 1
      ∧ (ParticipantsManagement.mute up1 room_name identity
          track_sid).1.getLast? = some Event.aclose)
    ∧ ((ParticipantsManagement.remove uuidOk up2 room_name identity).1.count
        Event.aclose = 1
      ∧ (ParticipantsManagement.remove uuidOk up2 room_name
          identity).1.getLast? = some Event.aclose)
    ∧ ((ParticipantsManagement.update up3 room_name identity metadata
          attributes permission name).1.count Event.aclose = 1
      ∧ (ParticipantsManagement.update up3 room_name identity metadata
          attributes permission name).1.getLast? = some Event.aclose) := by
  refine ⟨⟨?_, ?_⟩, ⟨?_, ?_⟩, ⟨?_, ?_⟩⟩
  · cases hup : up1 ⟨room_name, identity, track_sid, true⟩ <;>
      simp [ParticipantsManagement.mute, hup, List.count_cons]
  · cases hup : up1 ⟨room_name, identity, track_sid, true⟩ <;>
      simp [ParticipantsManagement.mute, hup]
  · cases hup : up2 ⟨room_name, identity⟩ <;> cases uuidOk <;>
      simp [ParticipantsManagement.remove, hup, List.count_cons]
  · cases hup : up2 ⟨room_name, identity⟩ <;> cases uuidOk <;>
      simp [ParticipantsManagement.remove, hup]
  · cases hup : up3 ⟨room_name, identity, jsonDumps (pyOptDictToJson metadata),
        permission, attributes, name⟩ <;>
      simp [ParticipantsManagement.update, hup, List.count_cons]
  · cases hup : up3 ⟨room_name, identity, jsonDumps (pyOptDictToJson metadata),
        permission, attributes, name⟩ <;>
      simp [ParticipantsManagement.update, hup]

/-- C3: for every sequence of `n ≥ 1` consecutive request-entry polls by
the same participant of a moderated room, starting with no record and with
no decision or expiry in between, exactly one moderator notification is
emitted over the whole sequence; it is emitted on the first poll — the one
whose `get_or_create_waiting` returns `created = true`. -/
theorem idempotent_notification (cfg : LobbyConfig)
    (issue : String → String → String → String)
    (room_id participant_id display_name : String) (n t : Nat) (s : LobbyStore)
    (habs : storeGet s (room_id, participant_id) = none) (hn : 1 ≤ n) :
    (pollRun cfg issue room_id participant_id display_name n t s).1 = 1
    ∧ (request_entry cfg issue true room_id participant_id display_name
        t s).1.notifications = [cfg.notification_type]
    ∧ (LobbyService.get_or_create_waiting cfg s room_id participant_id
        display_name t).2.1 = true := by
  obtain ⟨m, rfl⟩ : ∃ m, n = m + 1 := ⟨n - 1, (Nat.sub_add_cancel hn).symm⟩
  refine ⟨?_, ?_, ?_⟩
  · have hstep := pollRun_waiting cfg issue room_id participant_id display_name
      m (t + 1)
      (storeSet (room_id, participant_id)
        ⟨room_id, participant_id, display_name, LobbyStatus.waiting, t, none,
         cfg.waiting_timeout⟩ s)
      ⟨room_id, participant_id, display_name, LobbyStatus.waiting, t, none,
       cfg.waiting_timeout⟩
      (storeGet_storeSet_self (room_id, participant_id) _ s) rfl
    simp [pollRun, request_entry_new cfg issue room_id participant_id
      display_name t s habs, hstep]
  · simp [request_entry_new cfg issue room_id participant_id display_name t s habs]
  · simp [LobbyService.get_or_create_waiting, habs]

/-- Witness for C3 at a concrete input: empty store, three polls, one
notification in total. -/
theorem idempotent_notification_w :
    storeGet ([] : LobbyStore) ("r1", "p1") = none ∧ 1 ≤ 3
    ∧ (pollRun cfgW issueW "r1" "p1" "Alice" 3 0 []).1 = 1 :=
  ⟨rfl, by decide,
   (idempotent_notification cfgW issueW "r1" "p1" "Alice" 3 0 [] rfl
     (by decide)).1⟩

/-- C4: `decide` raises `LobbyParticipantNotFound` and leaves the store
unchanged whenever no WAITING record exists for (room_id, participant_id)
— absent or already terminal — and succeeds exactly on a record currently
in status WAITING, writing back the decided record. -/
theorem decide_requires_waiting (cfg : LobbyConfig) (s : LobbyStore)
    (room_id participant_id : String) (accept : Bool) (now : Nat) :
    ((∀ r, storeGet s (room_id, participant_id) = some r →
        r.status ≠ LobbyStatus.waiting) →
      LobbyService.decide cfg s room_id participant_id accept now
        = (Except.error LobbyError.LobbyParticipantNotFound, s))
    ∧ (∀ r, storeGet s (room_id, participant_id) = some r →
        r.status = LobbyStatus.waiting →
      LobbyService.decide cfg s room_id participant_id accept now
        = (Except.ok (LobbyService.decidedRecord cfg r accept now),
           storeSet (room_id, participant_id)
             (LobbyService.decidedRecord cfg r accept now) s)) := by
  constructor
  · intro hne
    cases h : storeGet s (room_id, participant_id) with
    | none => simp [LobbyService.decide, h]
    | some r =>
        have hr := hne r h
        cases hst : r.status with
        | waiting => exact absurd hst hr
        | accepted => simp [LobbyService.decide, h, hst]
        | denied => simp [LobbyService.decide, h, hst]
  · intro r h hw
    simp [LobbyService.decide, h, hw]

/-- Witness for C4 at concrete inputs: a store holding only a terminal
(accepted) record yields the not-found error and an unchanged store, while
a store holding a WAITING record lets `decide` succeed. -/
theorem decide_requires_waiting_w :
    LobbyService.decide cfgW [(("r1", "p1"), recA)] "r1" "p1" true 9
      = (Except.error LobbyError.LobbyParticipantNotFound,
         [(("r1", "p1"), recA)])
    ∧ storeGet ([(("r1", "p1"), recW)] : LobbyStore) ("r1", "p1") = some recW
    ∧ recW.status = LobbyStatus.waiting
    ∧ LobbyService.decide cfgW [(("r1", "p1"), recW)] "r1" "p1" true 9
      = (Except.ok (LobbyService.decidedRecord cfgW recW true 9),
         storeSet ("r1", "p1") (LobbyService.decidedRecord cfgW recW true 9)
           [(("r1", "p1"), recW)]) := by
  have hne : ∀ r, storeGet ([(("r1", "p1"), recA)] : LobbyStore) ("r1", "p1")
      = some r → r.status ≠ LobbyStatus.waiting := by
    intro r h
    simp [storeGet] at h
    subst h
    decide
  exact ⟨(decide_requires_waiting cfgW [(("r1", "p1"), recA)] "r1" "p1" true 9).1
      hne,
    by decide, by decide,
    (decide_requires_waiting cfgW [(("r1", "p1"), recW)] "r1" "p1" true 9).2
      recW (by decide) rfl⟩

/-- C5: `list_waiting` is sorted ascending by `created_at` and contains
exactly the records of the given room whose status is WAITING; being a
pure function of the store it performs no writes. -/
theorem list_waiting_sorted_and_complete (s : LobbyStore) (room_id : String) :
    List.Sorted LobbyService.createdLe (LobbyService.list_waiting s room_id)
    ∧ ∀ r : WaitingRecord,
        r ∈ LobbyService.list_waiting s room_id ↔
          (∃ k : LobbyKey, (k, r) ∈ s ∧ k.1 = room_id)
            ∧ r.status = LobbyStatus.waiting := by
  constructor
  · exact List.sorted_insertionSort LobbyService.createdLe _
  · intro r
    rw [LobbyService.list_waiting, List.mem_insertionSort]
    simp only [LobbyService.roomWaitingEntries, List.mem_map, List.mem_filter,
      Bool.and_eq_true, decide_eq_true_eq]
    constructor
    · rintro ⟨⟨k, v⟩, ⟨hmem, hroom, hst⟩, rfl⟩
      exact ⟨⟨k, hmem, hroom⟩, hst⟩
    · rintro ⟨⟨k, hmem, hroom⟩, hst⟩
      exact ⟨(k, r), ⟨hmem, hroom, hst⟩, rfl⟩

/-- Witness for C5 at a concrete input: a one-record store. -/
theorem list_waiting_sorted_and_complete_w :
    List.Sorted LobbyService.createdLe
      (LobbyService.list_waiting [(("r1", "p1"), recW)] "r1")
    ∧ (recW ∈ LobbyService.list_waiting [(("r1", "p1"), recW)] "r1" ↔
        (∃ k : LobbyKey, (k, recW) ∈ ([(("r1", "p1"), recW)] : LobbyStore)
            ∧ k.1 = "r1")
          ∧ recW.status = LobbyStatus.waiting) :=
  ⟨(list_waiting_sorted_and_complete [(("r1", "p1"), recW)] "r1").1,
   (list_waiting_sorted_and_complete [(("r1", "p1"), recW)] "r1").2 recW⟩

/-- C6: once a record is terminal (ACCEPTED or DENIED), a repeated
request-entry poll leaves the store unchanged, emits no notification and
keeps the record's status, and `decide` on it fails with
`LobbyParticipantNotFound` leaving the store unchanged: no normal-flow
operation other than `remove` or expiry brings it back to WAITING. -/
theorem no_resurrection (cfg : LobbyConfig)
    (issue : String → String → String → String)
    (s : LobbyStore) (room_id participant_id display_name : String)
    (now : Nat) (accept : Bool) (r : WaitingRecord)
    (h : storeGet s (room_id, participant_id) = some r)
    (hterm : r.status ≠ LobbyStatus.waiting) :
    (request_entry cfg issue true room_id participant_id display_name now s).2
      = s
    ∧ (request_entry cfg issue true room_id participant_id display_name
        now s).1.notifications = []
    ∧ storeGet
        (request_entry cfg issue true room_id participant_id display_name
          now s).2 (room_id, participant_id) = some r
    ∧ LobbyService.decide cfg s room_id participant_id accept now
        = (Except.error LobbyError.LobbyParticipantNotFound, s) := by
  cases hst : r.status with
  | waiting => exact absurd hst hterm
  | accepted =>
      refine ⟨?_, ?_, ?_, ?_⟩ <;>
        simp [request_entry, LobbyService.get_or_create_waiting, h, hst,
          LobbyService.decide]
  | denied =>
      refine ⟨?_, ?_, ?_, ?_⟩ <;>
        simp [request_entry, LobbyService.get_or_create_waiting, h, hst,
          LobbyService.decide]

/-- Witness for C6 at a concrete input: a store holding an accepted
record. -/
theorem no_resurrection_w :
    storeGet ([(("r1", "p1"), recA)] : LobbyStore) ("r1", "p1") = some recA
    ∧ recA.status ≠ LobbyStatus.waiting
    ∧ (request_entry cfgW issueW true "r1" "p1" "Alice" 9
        [(("r1", "p1"), recA)]).2 = [(("r1", "p1"), recA)]
    ∧ LobbyService.decide cfgW [(("r1", "p1"), recA)] "r1" "p1" true 9
        = (Except.error LobbyError.LobbyParticipantNotFound,
           [(("r1", "p1"), recA)]) := by
  have h := no_resurrection cfgW issueW [(("r1", "p1"), recA)] "r1" "p1"
    "Alice" 9 true recA (by decide) (by decide)
  exact ⟨by decide, by decide, h.1, h.2.2.2⟩

/-- C7: a request-entry call on an unmoderated (public) room returns
status accepted with the issued credential present, emits no notification,
and returns the lobby store unchanged — the Lobby Engine is never
touched. -/
theorem unmoderated_bypasses_lobby (cfg : LobbyConfig)
    (issue : String → String → String → String)
    (room_id participant_id display_name : String) (now : Nat)
    (s : LobbyStore) :
    request_entry cfg issue false room_id participant_id display_name now s
      = (⟨LobbyStatus.accepted,
          some (issue room_id participant_id display_name), []⟩, s) :=
  rfl
